import Mathlib

/-!
# Verification of the S3 proxy API (src/API/s3.py)

A shallow embedding of the three request handlers of `src/API/s3.py`
(`list_s3_files`, `head_s3_file`, `get_s3_file`) and of their helpers
(`check_object_existence`, `read_meta_json`), together with theorems that
settle the claims of the specification against the embedded code.

The storage provider (boto3/S3) and the humanize library are external
collaborators: they are modelled as abstract parameters (`S3Provider`,
`Humanizer`, a `loads` function for `json.loads`).  A provider failure is
either botocore's `NoCredentialsError` (a `BotoCoreError`, which carries
no `.response` attribute) or a client error carrying an error response
with the code found at `e.response["Error"]["Code"]` and the message
`str(e)`.  The listing paginator is modelled twice: `S3Provider.listPages`
collects the pages of a successful listing (the success path of the
streamer), while `generateStream` embeds the lazy per-fetch semantics of
`paginator.paginate` — no provider call is made until the response stream
is consumed, so a fetch failure surfaces mid-stream; `generateStream_ok`
proves the two agree whenever every fetch succeeds.
-/

namespace S3Api

/-- A UTC timestamp as handed back by the provider (a Python `datetime`). -/
structure DateTimeUTC where
  year : Nat
  month : Nat
  day : Nat
  hour : Nat
  minute : Nat
  second : Nat
deriving DecidableEq, Repr

/-- One entry of `response["Contents"]` in a listing page. -/
structure S3Object where
  key : String
  lastModified : DateTimeUTC
  size : Nat
deriving DecidableEq, Repr

/-- Metadata returned by a successful `head_object` call. -/
structure HeadMeta where
  lastModified : DateTimeUTC
  contentLength : Nat
deriving DecidableEq, Repr

/-- A provider-side failure: missing credentials, or a client error with an
error code and message. -/
inductive S3Error where
  | noCredentials
  | client (code : String) (msg : String)
deriving DecidableEq, Repr

/-- `str(e)` for a provider error. -/
def S3Error.str : S3Error → String
  | .noCredentials => "Unable to locate credentials"
  | .client _ m => m

/-- The error code the HEAD handler reads at
`e.response["Error"]["Code"]`.  Only a client error (`ClientError`)
carries a `.response`; `NoCredentialsError` is a `BotoCoreError` without
one, so the attribute access itself raises `AttributeError` — modelled as
`none`. -/
def S3Error.responseCode : S3Error → Option String
  | .noCredentials => none
  | .client c _ => some c

/-- JSON values, as produced by `json.loads` / consumed by `json.dumps`. -/
inductive Json where
  | str (s : String)
  | num (n : Int)
  | bool (b : Bool)
  | null
  | arr (xs : List Json)
  | obj (fields : List (String × Json))
deriving Repr

/-- Concatenate the chunks yielded by a streaming body. -/
def concatChunks : List String → String
  | [] => ""
  | c :: cs => c ++ concatChunks cs

/-- Lower-case hexadecimal digit (used by `json.dumps` unicode escapes). -/
def hexDigitLower (n : Nat) : Char :=
  if n < 10 then Char.ofNat (48 + n) else Char.ofNat (87 + n)

/-- Upper-case hexadecimal digit (used by `urllib.parse.quote`). -/
def hexDigitUpper (n : Nat) : Char :=
  if n < 10 then Char.ofNat (48 + n) else Char.ofNat (55 + n)

/-- Four lower-case hex digits, for a `\uXXXX` escape. -/
def hex4 (n : Nat) : String :=
  String.mk [hexDigitLower (n / 4096 % 16), hexDigitLower (n / 256 % 16),
    hexDigitLower (n / 16 % 16), hexDigitLower (n % 16)]

/-- How `json.dumps` (with its default `ensure_ascii=True`) renders one
character inside a string literal. -/
def jsonEscapeChar (c : Char) : String :=
  if c = '"' then "\\\""
  else if c = '\\' then "\\\\"
  else if c = Char.ofNat 8 then "\\b"
  else if c = Char.ofNat 9 then "\\t"
  else if c = Char.ofNat 10 then "\\n"
  else if c = Char.ofNat 12 then "\\f"
  else if c = Char.ofNat 13 then "\\r"
  else if c.toNat < 32 then "\\u" ++ hex4 c.toNat
  else if c.toNat < 127 then String.singleton c
  else if c.toNat < 65536 then "\\u" ++ hex4 c.toNat
  else
    let v := c.toNat - 65536
    "\\u" ++ hex4 (55296 + v / 1024) ++ "\\u" ++ hex4 (56320 + v % 1024)

/-- A JSON string literal as `json.dumps` renders it. -/
def dumpsString (s : String) : String :=
  "\"" ++ concatChunks (s.data.map jsonEscapeChar) ++ "\""

mutual

/-- `json.dumps` with its default separators (`", "` and `": "`). -/
def Json.dumps : Json → String
  | .str s => dumpsString s
  | .num n => toString n
  | .bool b => cond b "true" "false"
  | .null => "null"
  | .arr xs => "[" ++ dumpsArr xs ++ "]"
  | .obj fs => "\x7b" ++ dumpsObj fs ++ "\x7d"

/-- Array elements joined by `", "`. -/
def dumpsArr : List Json → String
  | [] => ""
  | [x] => Json.dumps x
  | x :: y :: xs => Json.dumps x ++ ", " ++ dumpsArr (y :: xs)

/-- Object members `"key": value` joined by `", "`. -/
def dumpsObj : List (String × Json) → String
  | [] => ""
  | [(k, v)] => dumpsString k ++ ": " ++ Json.dumps v
  | (k, v) :: f :: fs => dumpsString k ++ ": " ++ Json.dumps v ++ ", " ++ dumpsObj (f :: fs)

end

/-- Look a key up in a JSON object (first occurrence). -/
def Json.field : Json → String → Option Json
  | .obj fs, k => fs.lookup k
  | _, _ => none

/-- The member names of a JSON object, in order. -/
def Json.fieldNames : Json → List String
  | .obj fs => fs.map Prod.fst
  | _ => []

/-- Zero-pad to two digits (strftime `%d`, `%H`, `%M`, `%S`, `%m`). -/
def pad2 (n : Nat) : String :=
  if n < 10 then "0" ++ toString n else toString n

/-- Zero-pad to four digits (strftime `%Y`). -/
def pad4 (n : Nat) : String :=
  if n < 10 then "000" ++ toString n
  else if n < 100 then "00" ++ toString n
  else if n < 1000 then "0" ++ toString n
  else toString n

/-- `strftime("%Y-%m-%dT%H:%M:%SZ")`: ISO-8601 UTC. -/
def strftimeIso (d : DateTimeUTC) : String :=
  pad4 d.year ++ "-" ++ pad2 d.month ++ "-" ++ pad2 d.day ++ "T" ++
    pad2 d.hour ++ ":" ++ pad2 d.minute ++ ":" ++ pad2 d.second ++ "Z"

/-- Day of week by Zeller's congruence: 0 = Saturday, 1 = Sunday, … -/
def zellerDay (y m d : Nat) : Nat :=
  let yy := if m < 3 then y - 1 else y
  let mm := if m < 3 then m + 12 else m
  let k := yy % 100
  let j := yy / 100
  (d + 13 * (mm + 1) / 5 + k + k / 4 + j / 4 + 5 * j) % 7

/-- strftime `%a` (C locale). -/
def weekdayAbbrev (h : Nat) : String :=
  (["Sat", "Sun", "Mon", "Tue", "Wed", "Thu", "Fri"]).getD h "Sat"

/-- strftime `%b` (C locale). -/
def monthAbbrev (m : Nat) : String :=
  (["Jan", "Feb", "Mar", "Apr", "May", "Jun", "Jul", "Aug", "Sep", "Oct",
    "Nov", "Dec"]).getD (m - 1) "Jan"

/-- `strftime("%a, %d %b %Y %H:%M:%S GMT")`, the HEAD `Last-Modified` header. -/
def strftimeHttp (d : DateTimeUTC) : String :=
  weekdayAbbrev (zellerDay d.year d.month d.day) ++ ", " ++ pad2 d.day ++ " " ++
    monthAbbrev d.month ++ " " ++ pad4 d.year ++ " " ++ pad2 d.hour ++ ":" ++
    pad2 d.minute ++ ":" ++ pad2 d.second ++ " GMT"

/-- Python `str.strip("/")`: drop leading and trailing slashes. -/
def stripSlashes (s : String) : String :=
  String.mk (((s.data.dropWhile (· = '/')).reverse.dropWhile (· = '/')).reverse)

/-- UTF-8 encoding of one character, as a list of byte values. -/
def utf8Bytes (c : Char) : List Nat :=
  let n := c.toNat
  if n < 128 then [n]
  else if n < 2048 then [192 + n / 64, 128 + n % 64]
  else if n < 65536 then [224 + n / 4096, 128 + n / 64 % 64, 128 + n % 64]
  else [240 + n / 262144, 128 + n / 4096 % 64, 128 + n / 64 % 64, 128 + n % 64]

/-- Bytes left intact by `urllib.parse.quote` with its default `safe="/"`:
ASCII alphanumerics, `_ . - ~` and `/`. -/
def isUnreservedByte (b : Nat) : Bool :=
  (48 ≤ b && b ≤ 57) || (65 ≤ b && b ≤ 90) || (97 ≤ b && b ≤ 122) ||
    b == 45 || b == 46 || b == 95 || b == 126 || b == 47

/-- One byte as `urllib.parse.quote` emits it. -/
def quoteByte (b : Nat) : String :=
  if isUnreservedByte b then String.singleton (Char.ofNat b)
  else String.mk ['%', hexDigitUpper (b / 16), hexDigitUpper (b % 16)]

/-- `urllib.parse.quote` with its defaults: UTF-8 encode, then
percent-encode every byte outside the unreserved set. -/
def quote (s : String) : String :=
  concatChunks ((s.data.flatMap utf8Bytes).map quoteByte)

/-- The storage-provider client (the boto3 `s3` client): each operation
either succeeds or reports an `S3Error`.  `listPages` stands for the
`list_objects_v2` paginator, returning the pages in provider order (a page
without a `Contents` entry is an empty list, matching
`response.get("Contents", [])`). -/
structure S3Provider where
  headObject : String → String → Except S3Error HeadMeta
  getObject : String → String → Except S3Error String
  listPages : String → String → Except S3Error (List (List S3Object))
  presign : String → String → Int → String

/-- The `humanize` library: `naturaldate` and `naturalsize`. -/
structure Humanizer where
  naturaldate : DateTimeUTC → String
  naturalsize : Nat → String

/-- One call made to the provider, for tracing which provider operations a
handler performs and in which order. -/
inductive PCall where
  | headObj (bucket key : String)
  | getObj (bucket key : String)
  | presignUrl (bucket key : String) (expiry : Int)
deriving DecidableEq, Repr

/-! ## The listing endpoint (`list_s3_files`) -/

/-- The dict built for one listed item:
`{"Key": …, "LastModified": …, "Size": …}`, with `Size`/`LastModified`
replaced by their humanized forms when `prettify` is set. -/
def itemDict (prettify : Bool) (h : Humanizer) (item : S3Object) : Json :=
  if prettify then
    .obj [("Key", .str item.key),
          ("LastModified", .str (h.naturaldate item.lastModified)),
          ("Size", .str (h.naturalsize item.size))]
  else
    .obj [("Key", .str item.key),
          ("LastModified", .str (strftimeIso item.lastModified)),
          ("Size", .num item.size)]

/-- The inner `for item in contents` loop of `generate`: yields `","`
before every item except when `first_item` is still set; returns the
yielded chunks together with the updated `first_item` flag. -/
def itemChunks (prettify : Bool) (h : Humanizer) :
    Bool → List S3Object → List String × Bool
  | first, [] => ([], first)
  | first, item :: rest =>
    let s := (itemDict prettify h item).dumps
    let tl := itemChunks prettify h false rest
    ((if first then [s] else [",", s]) ++ tl.1, tl.2)

/-- The outer `for response in page_iterator` loop of `generate`. -/
def pageChunks (prettify : Bool) (h : Humanizer) :
    Bool → List (List S3Object) → List String
  | _, [] => []
  | first, pg :: rest =>
    let cs := itemChunks prettify h first pg
    cs.1 ++ pageChunks prettify h cs.2 rest

/-- The `generate` streaming body: `"["`, the item chunks, `"]"`. -/
def generate (prettify : Bool) (h : Humanizer) (pages : List (List S3Object)) :
    List String :=
  "[" :: (pageChunks prettify h true pages ++ ["]"])

/-- Outcome of the listing endpoint: a streamed body (the list of yielded
chunks), an `HTTPException`, or an exception the handler does not catch. -/
inductive ListResult where
  | stream (chunks : List String)
  | httpError (status : Nat) (detail : String)
  | unhandled (e : S3Error)
deriving Repr

/-- The `/s3/files/` handler on the success path: strip slashes from
`folder`, list the pages under `folder + "/"`, stream the records as one
JSON array.  The error arms embed the handler's `except NoCredentialsError`
clause as written; under the lazy paginator semantics (`generateStream`
below) `paginator.paginate` makes no provider call, so that clause is
dead code and a listing failure instead surfaces while the returned
stream is consumed. -/
def list_s3_files (prov : S3Provider) (h : Humanizer) (bucket folder : String)
    (prettify : Bool) : ListResult :=
  let f := stripSlashes folder
  let pfx := f ++ "/"
  match prov.listPages bucket pfx with
  | .ok pages => .stream (generate prettify h pages)
  | .error .noCredentials => .httpError 500 "AWS credentials not available"
  | .error e => .unhandled e

/-- How a consumed listing stream ends: the generator runs to completion,
or a page fetch inside it raises a provider error mid-stream, aborting the
stream (the response has already begun, so no `HTTPException` can be
returned). -/
inductive StreamEnd where
  | completed
  | raised (e : S3Error)
deriving DecidableEq, Repr

/-- The loop of `generate` driven over the lazy page iterator: boto3's
`paginator.paginate(...)` performs no provider call itself; each iteration
of `for response in page_iterator` fetches one page, either returning its
`Contents` or raising.  `fetches` is the sequence of page-fetch outcomes;
iteration aborts at the first raised error, keeping the chunks already
yielded, and yields the closing `"]"` only when every fetch succeeded. -/
def generateLazyAux (prettify : Bool) (h : Humanizer) :
    Bool → List (Except S3Error (List S3Object)) → List String × StreamEnd
  | _, [] => (["]"], .completed)
  | _, .error e :: _ => ([], .raised e)
  | first, .ok pg :: rest =>
    let cs := itemChunks prettify h first pg
    let tl := generateLazyAux prettify h cs.2 rest
    (cs.1 ++ tl.1, tl.2)

/-- The `generate` streaming body under the lazy paginator semantics:
`"["` is yielded before the first page fetch, then the fetch-driven loop
runs; the result is the chunks the stream produces together with how it
ends. -/
def generateStream (prettify : Bool) (h : Humanizer)
    (fetches : List (Except S3Error (List S3Object))) :
    List String × StreamEnd :=
  let tl := generateLazyAux prettify h true fetches
  ("[" :: tl.1, tl.2)

/-! ## The helpers of the GET endpoint -/

/-- `check_object_existence`: `head_object`, mapping a missing-credentials
failure to a 500 and any other failure to a 404 naming the probed path;
alongside the outcome, the provider call it makes. -/
def check_object_existence (prov : S3Provider) (bucket_name file_path : String) :
    Except (Nat × String) Unit × List PCall :=
  (match prov.headObject bucket_name file_path with
   | .ok _ => .ok ()
   | .error .noCredentials => .error (500, "AWS credentials not available")
   | .error (.client _ _) =>
       .error (404, "File or folder not found: " ++ file_path),
   [.headObj bucket_name file_path])

/-- `read_meta_json`: `get_object` then `json.loads`; any failure of either
becomes a 500 whose detail wraps `str(e)`.  `loads` is the embedding of
`json.loads`, a parameter of the model. -/
def read_meta_json (prov : S3Provider) (loads : String → Except String Json)
    (bucket_name file_path : String) :
    Except (Nat × String) Json × List PCall :=
  (match prov.getObject bucket_name file_path with
   | .error e => .error (500, "Error reading meta.json: " ++ e.str)
   | .ok body =>
     match loads body with
     | .error m => .error (500, "Error reading meta.json: " ++ m)
     | .ok j => .ok j,
   [.getObj bucket_name file_path])

/-! ## The HEAD endpoint (`head_s3_file`) -/

/-- Outcome of the HEAD endpoint: 200 with `Last-Modified` and
`Content-Length` headers and no body, a bare 404 with empty body, an
`HTTPException` carrying a detail payload, or an exception that escaped
the handler (the hosting framework then answers with its generic 500 and
no provider detail). -/
inductive HeadResult where
  | ok (lastModifiedHeader : String) (contentLengthHeader : String)
  | notFound
  | httpError (status : Nat) (detail : String)
  | unhandled
deriving DecidableEq, Repr

/-- The HTTP status of a HEAD outcome (an escaped exception is answered by
the framework with a generic 500). -/
def HeadResult.status : HeadResult → Nat
  | .ok _ _ => 200
  | .notFound => 404
  | .httpError s _ => s
  | .unhandled => 500

/-- The `HTTPException` detail payload of a HEAD outcome (`none` for the
empty-body responses and for an escaped exception, whose generic framework
body carries no provider detail). -/
def HeadResult.errorPayload : HeadResult → Option String
  | .httpError _ d => some d
  | _ => none

/-- The `/s3/get/{file_path}` HEAD handler: `head_object` on the quoted,
slash-stripped path; on success, headers from the metadata.  The except
block reads `e.response["Error"]["Code"]`: when the error carries a
response, code `"404"` gives the bare 404 and any other code a 500
wrapping the provider's message; when it carries none (botocore's
`NoCredentialsError`), that attribute access itself raises inside the
except block and the exception escapes the handler. -/
def head_s3_file (prov : S3Provider) (bucket file_path : String) : HeadResult :=
  let encoded_file_path := quote (stripSlashes file_path)
  match prov.headObject bucket encoded_file_path with
  | .ok md => .ok (strftimeHttp md.lastModified) (toString md.contentLength)
  | .error e =>
    match e.responseCode with
    | none => .unhandled
    | some c =>
      if c = "404" then .notFound
      else .httpError 500 ("AWS Error: " ++ e.str)

/-! ## The GET endpoint (`get_s3_file`) -/

/-- `file_path.lower().endswith(".json")`: ASCII case-folding, then suffix
test (the suffix of interest is pure ASCII). -/
def lowerEndsWithJson (s : String) : Bool :=
  ".json".data.isSuffixOf (s.data.map Char.toLower)

/-- Outcome of the GET endpoint: a rejection by the query validation layer
(FastAPI's `Query(gt=…, le=…)`, which runs before the handler body), an
`HTTPException`, an inline JSON body, or a redirect to a presigned URL. -/
inductive GetResult where
  | validationError
  | httpError (status : Nat) (detail : String)
  | jsonBody (content : Json)
  | redirect (url : String)
deriving Repr

/-- The `/s3/get/{file_path}` GET handler.  The expiry bounds are those of
the route declaration: `gt=60*10` and `le=3600*12*7`, that is
`600 < expiry ≤ 302400`; FastAPI rejects an out-of-range value before the
handler body runs, so no provider call is made then.  Returns the outcome
together with the trace of provider calls, in order. -/
def get_s3_file (prov : S3Provider) (loads : String → Except String Json)
    (bucket file_path : String) (expiry : Int) (read_meta : Bool) :
    GetResult × List PCall :=
  if 600 < expiry ∧ expiry ≤ 302400 then
    let fp := stripSlashes file_path
    let encoded_file_path := quote fp
    let chk := check_object_existence prov bucket encoded_file_path
    match chk.1 with
    | .error sd => (.httpError sd.1 sd.2, chk.2)
    | .ok () =>
      if read_meta ∧ lowerEndsWithJson fp then
        let rd := read_meta_json prov loads bucket fp
        match rd.1 with
        | .error sd => (.httpError sd.1 sd.2, chk.2 ++ rd.2)
        | .ok content => (.jsonBody content, chk.2 ++ rd.2)
      else
        (.redirect (prov.presign bucket encoded_file_path expiry),
         chk.2 ++ [.presignUrl bucket encoded_file_path expiry])
  else
    (.validationError, [])

/-! ## Derived notions used by the theorems -/

/-- Strings joined by a single `","`, with no leading comma before the
first and no trailing comma: the shape of a streamed JSON array body. -/
def commaJoined : List String → String
  | [] => ""
  | [s] => s
  | s :: t :: rest => s ++ "," ++ commaJoined (t :: rest)

/-- The keys whose existence a trace probes (`head_object` calls). -/
def probedKeys (tr : List PCall) : List String :=
  tr.filterMap fun c => match c with | .headObj _ k => some k | _ => none

/-- The keys whose content a trace reads (`get_object` calls). -/
def readKeys (tr : List PCall) : List String :=
  tr.filterMap fun c => match c with | .getObj _ k => some k | _ => none

/-! ## Concrete fixtures used by witnesses and counterexamples -/

/-- A fixed timestamp (2024-01-15 12:00:00 UTC, a Monday). -/
def sampleDate : DateTimeUTC := ⟨2024, 1, 15, 12, 0, 0⟩

/-- Fixed object metadata. -/
def sampleMeta : HeadMeta := ⟨sampleDate, 42⟩

/-- Three listing pages (one record, none, two records). -/
def okPages : List (List S3Object) :=
  [[⟨"HDX/a.txt", ⟨2024, 1, 1, 0, 0, 0⟩, 1⟩], [],
   [⟨"HDX/b.txt", ⟨2024, 1, 2, 0, 0, 0⟩, 2⟩,
    ⟨"HDX/c.txt", ⟨2024, 1, 3, 0, 0, 0⟩, 3⟩]]

/-- A provider on which every operation succeeds. -/
def okProv : S3Provider where
  headObject := fun _ _ => .ok sampleMeta
  getObject := fun _ _ => .ok "\x7b\x7d"
  listPages := fun _ _ => .ok okPages
  presign := fun bucket key expiry =>
    "https://" ++ bucket ++ ".s3.amazonaws.com/" ++ key ++ "?Expires=" ++ toString expiry

/-- A provider that reports missing credentials on every operation. -/
def credFailProv : S3Provider where
  headObject := fun _ _ => .error .noCredentials
  getObject := fun _ _ => .error .noCredentials
  listPages := fun _ _ => .error .noCredentials
  presign := fun _ _ _ => ""

/-- A provider on which every object is missing (error code 404). -/
def missingProv : S3Provider where
  headObject := fun _ _ =>
    .error (.client "404"
      "An error occurred (404) when calling the HeadObject operation: Not Found")
  getObject := fun _ _ =>
    .error (.client "NoSuchKey"
      "An error occurred (NoSuchKey) when calling the GetObject operation: The specified key does not exist.")
  listPages := fun _ _ => .ok []
  presign := fun _ _ _ => ""

/-- A provider whose existence probe fails with access denied (403): a
provider failure that is not an object-not-found condition. -/
def deniedProv : S3Provider where
  headObject := fun _ _ =>
    .error (.client "403"
      "An error occurred (403) when calling the HeadObject operation: Forbidden")
  getObject := fun _ _ =>
    .error (.client "AccessDenied"
      "An error occurred (AccessDenied) when calling the GetObject operation: Access Denied")
  listPages := fun _ _ => .ok []
  presign := fun _ _ _ => ""

/-- A fixed humanizer. -/
def toyHumanizer : Humanizer where
  naturaldate := fun _ => "Jan 15 2024"
  naturalsize := fun n => toString n ++ " Bytes"

/-- A miniature embedding of `json.loads` for concrete witnesses: it
recognises the empty object and rejects everything else. -/
def toyLoads : String → Except String Json := fun s =>
  if s = "\x7b\x7d" then .ok (.obj [])
  else .error "Expecting value: line 1 column 1 (char 0)"

/-! ## Lemmas about the streamed listing body -/

theorem concatChunks_append (a b : List String) :
    concatChunks (a ++ b) = concatChunks a ++ concatChunks b := by
  induction a with
  | nil => simp [concatChunks, String.empty_append]
  | cons x xs ih => simp [concatChunks, ih, String.append_assoc]

theorem itemChunks_flag_false (p : Bool) (h : Humanizer) (l : List S3Object) :
    (itemChunks p h false l).2 = false := by
  induction l with
  | nil => rfl
  | cons x xs ih => simp [itemChunks, ih]

theorem itemChunks_flag (p : Bool) (h : Humanizer) (first : Bool) (l : List S3Object) :
    (itemChunks p h first l).2 = (first && l.isEmpty) := by
  cases l with
  | nil => simp [itemChunks]
  | cons x xs => simp [itemChunks, itemChunks_flag_false]

theorem itemChunks_concat_false (p : Bool) (h : Humanizer) (l : List S3Object) :
    concatChunks (itemChunks p h false l).1 =
      concatChunks (l.map fun it => "," ++ (itemDict p h it).dumps) := by
  induction l with
  | nil => rfl
  | cons x xs ih => simp [itemChunks, concatChunks, ih, String.append_assoc]

theorem commaJoined_cons (s : String) (l : List String) :
    commaJoined (s :: l) = s ++ concatChunks (l.map fun t => "," ++ t) := by
  induction l generalizing s with
  | nil => simp [commaJoined, concatChunks, String.append_empty]
  | cons t rest ih => simp [commaJoined, ih, concatChunks, String.append_assoc]

theorem itemChunks_concat_true (p : Bool) (h : Humanizer) (l : List S3Object) :
    concatChunks (itemChunks p h true l).1 =
      commaJoined (l.map fun it => (itemDict p h it).dumps) := by
  cases l with
  | nil => rfl
  | cons x xs =>
    simp [itemChunks, concatChunks, commaJoined_cons, itemChunks_concat_false,
      List.map_map, Function.comp_def]

theorem pageChunks_concat_false (p : Bool) (h : Humanizer) (pgs : List (List S3Object)) :
    concatChunks (pageChunks p h false pgs) =
      concatChunks (pgs.flatten.map fun it => "," ++ (itemDict p h it).dumps) := by
  induction pgs with
  | nil => rfl
  | cons pg rest ih =>
    simp [pageChunks, itemChunks_flag_false, concatChunks_append,
      itemChunks_concat_false, ih, List.map_append]

theorem commaJoined_append_cons (s : String) (l1 l2 : List String) :
    commaJoined ((s :: l1) ++ l2) =
      commaJoined (s :: l1) ++ concatChunks (l2.map fun t => "," ++ t) := by
  simp [commaJoined_cons, List.map_append, concatChunks_append, String.append_assoc]

theorem pageChunks_concat_true (p : Bool) (h : Humanizer) (pgs : List (List S3Object)) :
    concatChunks (pageChunks p h true pgs) =
      commaJoined (pgs.flatten.map fun it => (itemDict p h it).dumps) := by
  induction pgs with
  | nil => rfl
  | cons pg rest ih =>
    cases pg with
    | nil => simpa [pageChunks, itemChunks] using ih
    | cons x xs =>
      have hflag : (itemChunks p h true (x :: xs)).2 = false := by
        simp [itemChunks_flag]
      have step : concatChunks (pageChunks p h true ((x :: xs) :: rest)) =
          commaJoined ((x :: xs).map fun it => (itemDict p h it).dumps) ++
            concatChunks ((rest.flatten.map fun it => (itemDict p h it).dumps).map
              fun t => "," ++ t) := by
        rw [pageChunks, hflag, concatChunks_append, itemChunks_concat_true,
          pageChunks_concat_false, List.map_map]
        simp [Function.comp_def]
      rw [step, List.flatten_cons, List.map_append, List.map_cons,
        commaJoined_append_cons]

/-- Concatenating the chunks of `generate` yields `[`, the dumped records
of all pages in order joined by `,`, then `]`. -/
theorem generate_concat (p : Bool) (h : Humanizer) (pages : List (List S3Object)) :
    concatChunks (generate p h pages) =
      "[" ++ commaJoined (pages.flatten.map fun it => (itemDict p h it).dumps) ++ "]" := by
  simp [generate, concatChunks, concatChunks_append, pageChunks_concat_true,
    String.append_empty, String.append_assoc]

theorem generateLazyAux_ok (p : Bool) (h : Humanizer) (first : Bool)
    (pages : List (List S3Object)) :
    generateLazyAux p h first (pages.map Except.ok) =
      (pageChunks p h first pages ++ ["]"], .completed) := by
  induction pages generalizing first with
  | nil => rfl
  | cons pg rest ih => simp [generateLazyAux, pageChunks, ih, List.append_assoc]

/-- On a listing whose every page fetch succeeds, the lazy stream yields
exactly the chunks of `generate` and completes: the two models of the
paginator agree on the success path. -/
theorem generateStream_ok (p : Bool) (h : Humanizer) (pages : List (List S3Object)) :
    generateStream p h (pages.map Except.ok) = (generate p h pages, .completed) := by
  simp [generateStream, generate, generateLazyAux_ok]

/-! ## Lemmas about the GET handler -/

theorem get_s3_file_out_of_range (prov : S3Provider)
    (loads : String → Except String Json) (bucket fp : String) (rm : Bool)
    (e : Int) (he : ¬(600 < e ∧ e ≤ 302400)) :
    get_s3_file prov loads bucket fp e rm = (.validationError, []) := by
  simp [get_s3_file, he]

theorem get_s3_file_probe_client_error (prov : S3Provider)
    (loads : String → Except String Json) (bucket fp : String) (rm : Bool)
    (e : Int) (c m : String) (he : 600 < e ∧ e ≤ 302400)
    (hh : prov.headObject bucket (quote (stripSlashes fp)) = .error (.client c m)) :
    get_s3_file prov loads bucket fp e rm =
      (.httpError 404 ("File or folder not found: " ++ quote (stripSlashes fp)),
       [.headObj bucket (quote (stripSlashes fp))]) := by
  simp [get_s3_file, he.1, he.2, check_object_existence, hh]

theorem get_s3_file_probe_nocred (prov : S3Provider)
    (loads : String → Except String Json) (bucket fp : String) (rm : Bool)
    (e : Int) (he : 600 < e ∧ e ≤ 302400)
    (hh : prov.headObject bucket (quote (stripSlashes fp)) = .error .noCredentials) :
    get_s3_file prov loads bucket fp e rm =
      (.httpError 500 "AWS credentials not available",
       [.headObj bucket (quote (stripSlashes fp))]) := by
  simp [get_s3_file, he.1, he.2, check_object_existence, hh]

theorem get_s3_file_json_ok (prov : S3Provider)
    (loads : String → Except String Json) (bucket fp : String)
    (e : Int) (md : HeadMeta) (body : String) (j : Json)
    (he : 600 < e ∧ e ≤ 302400)
    (hh : prov.headObject bucket (quote (stripSlashes fp)) = .ok md)
    (hj : lowerEndsWithJson (stripSlashes fp) = true)
    (hg : prov.getObject bucket (stripSlashes fp) = .ok body)
    (hl : loads body = .ok j) :
    get_s3_file prov loads bucket fp e true =
      (.jsonBody j,
       [.headObj bucket (quote (stripSlashes fp)), .getObj bucket (stripSlashes fp)]) := by
  simp [get_s3_file, he.1, he.2, check_object_existence, hh, hj,
    read_meta_json, hg, hl]

theorem get_s3_file_json_load_error (prov : S3Provider)
    (loads : String → Except String Json) (bucket fp : String)
    (e : Int) (md : HeadMeta) (body m : String)
    (he : 600 < e ∧ e ≤ 302400)
    (hh : prov.headObject bucket (quote (stripSlashes fp)) = .ok md)
    (hj : lowerEndsWithJson (stripSlashes fp) = true)
    (hg : prov.getObject bucket (stripSlashes fp) = .ok body)
    (hl : loads body = .error m) :
    get_s3_file prov loads bucket fp e true =
      (.httpError 500 ("Error reading meta.json: " ++ m),
       [.headObj bucket (quote (stripSlashes fp)), .getObj bucket (stripSlashes fp)]) := by
  simp [get_s3_file, he.1, he.2, check_object_existence, hh, hj,
    read_meta_json, hg, hl]

theorem get_s3_file_json_get_error (prov : S3Provider)
    (loads : String → Except String Json) (bucket fp : String)
    (e : Int) (md : HeadMeta) (err : S3Error)
    (he : 600 < e ∧ e ≤ 302400)
    (hh : prov.headObject bucket (quote (stripSlashes fp)) = .ok md)
    (hj : lowerEndsWithJson (stripSlashes fp) = true)
    (hg : prov.getObject bucket (stripSlashes fp) = .error err) :
    get_s3_file prov loads bucket fp e true =
      (.httpError 500 ("Error reading meta.json: " ++ err.str),
       [.headObj bucket (quote (stripSlashes fp)), .getObj bucket (stripSlashes fp)]) := by
  simp [get_s3_file, he.1, he.2, check_object_existence, hh, hj,
    read_meta_json, hg]

theorem get_s3_file_redirect (prov : S3Provider)
    (loads : String → Except String Json) (bucket fp : String) (rm : Bool)
    (e : Int) (md : HeadMeta) (he : 600 < e ∧ e ≤ 302400)
    (hh : prov.headObject bucket (quote (stripSlashes fp)) = .ok md)
    (hnm : rm = false ∨ lowerEndsWithJson (stripSlashes fp) = false) :
    get_s3_file prov loads bucket fp e rm =
      (.redirect (prov.presign bucket (quote (stripSlashes fp)) e),
       [.headObj bucket (quote (stripSlashes fp)),
        .presignUrl bucket (quote (stripSlashes fp)) e]) := by
  rcases hnm with hr | hw
  · simp [get_s3_file, he.1, he.2, check_object_existence, hh, hr]
  · simp [get_s3_file, he.1, he.2, check_object_existence, hh, hw]

theorem get_s3_file_in_range_not_validation (prov : S3Provider)
    (loads : String → Except String Json) (bucket fp : String) (rm : Bool)
    (e : Int) (he : 600 < e ∧ e ≤ 302400) :
    (get_s3_file prov loads bucket fp e rm).1 ≠ .validationError := by
  cases hh : prov.headObject bucket (quote (stripSlashes fp)) with
  | error err =>
    cases err with
    | noCredentials => simp [get_s3_file_probe_nocred prov loads bucket fp rm e he hh]
    | client c m => simp [get_s3_file_probe_client_error prov loads bucket fp rm e c m he hh]
  | ok md =>
    by_cases hrm : rm = true
    · subst hrm
      by_cases hj : lowerEndsWithJson (stripSlashes fp) = true
      · cases hg : prov.getObject bucket (stripSlashes fp) with
        | error err =>
          simp [get_s3_file_json_get_error prov loads bucket fp e md err he hh hj hg]
        | ok body =>
          cases hl : loads body with
          | error m =>
            simp [get_s3_file_json_load_error prov loads bucket fp e md body m he hh hj hg hl]
          | ok j =>
            simp [get_s3_file_json_ok prov loads bucket fp e md body j he hh hj hg hl]
      · have hw : lowerEndsWithJson (stripSlashes fp) = false :=
          Bool.eq_false_iff.mpr hj
        simp [get_s3_file_redirect prov loads bucket fp true e md he hh (Or.inr hw)]
    · have hr : rm = false := Bool.eq_false_iff.mpr hrm
      simp [get_s3_file_redirect prov loads bucket fp rm e md he hh (Or.inl hr)]

/-! ## The claims -/

/-- C1 counterexample: an expiry of 3024000 seconds is NOT accepted by the
GET endpoint: the route bound is `le=3600*12*7 = 302400`, so 3024000 is
rejected by validation before any provider call (empty call trace). -/
theorem C1_counterexample :
    get_s3_file okProv toyLoads "bucket" "HDX/a.txt" 3024000 false =
      (.validationError, []) := rfl

/-- C1 (amended): for the content-retrieval (GET) endpoint, an expiry of
600 is rejected and 302401 is rejected, while 601 is accepted and 302400
is accepted (expiry must lie strictly above 600 and at most
302400 = 3600·12·7 seconds), and any out-of-range expiry is rejected
before any provider call is made (the provider-call trace is empty). -/
theorem C1_expiry_bounds (prov : S3Provider) (loads : String → Except String Json)
    (bucket fp : String) (rm : Bool) (e : Int) :
    (¬(600 < e ∧ e ≤ 302400) →
      get_s3_file prov loads bucket fp e rm = (.validationError, [])) ∧
    ((600 < e ∧ e ≤ 302400) →
      (get_s3_file prov loads bucket fp e rm).1 ≠ .validationError) ∧
    get_s3_file prov loads bucket fp 600 rm = (.validationError, []) ∧
    get_s3_file prov loads bucket fp 302401 rm = (.validationError, []) ∧
    (get_s3_file prov loads bucket fp 601 rm).1 ≠ .validationError ∧
    (get_s3_file prov loads bucket fp 302400 rm).1 ≠ .validationError :=
  ⟨fun he => get_s3_file_out_of_range prov loads bucket fp rm e he,
   fun he => get_s3_file_in_range_not_validation prov loads bucket fp rm e he,
   get_s3_file_out_of_range prov loads bucket fp rm 600 (by decide),
   get_s3_file_out_of_range prov loads bucket fp rm 302401 (by decide),
   get_s3_file_in_range_not_validation prov loads bucket fp rm 601 (by decide),
   get_s3_file_in_range_not_validation prov loads bucket fp rm 302400 (by decide)⟩

/-- C1 witness: the amended bounds evaluated at concrete inputs. -/
theorem C1_expiry_bounds_witness :
    get_s3_file okProv toyLoads "bucket" "HDX/a.txt" 150 false =
      (.validationError, []) ∧
    (get_s3_file okProv toyLoads "bucket" "HDX/a.txt" 3600 false).1 ≠
      .validationError ∧
    get_s3_file okProv toyLoads "bucket" "HDX/a.txt" 600 false =
      (.validationError, []) ∧
    (get_s3_file okProv toyLoads "bucket" "HDX/a.txt" 302400 false).1 ≠
      .validationError := by
  have h150 := C1_expiry_bounds okProv toyLoads "bucket" "HDX/a.txt" false 150
  have h3600 := C1_expiry_bounds okProv toyLoads "bucket" "HDX/a.txt" false 3600
  exact ⟨h150.1 (by decide), h3600.2.1 (by decide), h150.2.2.1,
    h150.2.2.2.2.2⟩

/-- C2: under the lazy paginator, `paginator.paginate` makes no provider
call, so a missing-credentials failure is raised by the first page fetch,
inside the generator, once the response stream is being consumed: the
chunk `"["` has already been yielded when `NoCredentialsError` surfaces,
and the stream aborts mid-flight — the claimed 500-before-any-output (the
handler's `except NoCredentialsError` clause) is never produced.
Evaluated both for every continuation of the failing fetch and at the
concrete failing input. -/
theorem C2_lazy_credentials_mid_stream (prettify : Bool) (h : Humanizer)
    (rest : List (Except S3Error (List S3Object))) :
    generateStream prettify h (.error .noCredentials :: rest) =
      (["["], .raised .noCredentials) ∧
    generateStream false toyHumanizer [.error .noCredentials] =
      (["["], .raised .noCredentials) ∧
    concatChunks (generateStream false toyHumanizer
      [.error .noCredentials]).1 = "[" :=
  ⟨rfl, rfl, rfl⟩

/-- C3 counterexample: an access-denied (403) failure from the existence
probe is surfaced as a 404 "File or folder not found" — not as a 500
wrapping the provider message, as the claim states. -/
theorem C3_counterexample :
    (get_s3_file deniedProv toyLoads "bucket" "HDX/data.json" 3600 true).1 =
      .httpError 404 "File or folder not found: HDX/data.json" ∧
    ∀ d, (get_s3_file deniedProv toyLoads "bucket" "HDX/data.json" 3600 true).1 ≠
      .httpError 500 d := by
  have h1 : (get_s3_file deniedProv toyLoads "bucket" "HDX/data.json" 3600 true).1 =
      .httpError 404 "File or folder not found: HDX/data.json" := by
    rw [get_s3_file_probe_client_error deniedProv toyLoads "bucket" "HDX/data.json"
      true 3600 "403"
      "An error occurred (403) when calling the HeadObject operation: Forbidden"
      (by decide) rfl]
    rfl
  refine ⟨h1, fun d hd => ?_⟩
  rw [h1] at hd
  injection hd with hs _
  exact absurd hs (by decide)

/-- C3 (amended): during content retrieval (GET), every provider failure
from the existence probe other than missing credentials — including access
denied or a transient provider error — is surfaced as a 404 naming the
probed (percent-quoted) path, and a missing-credentials failure as a 500
"AWS credentials not available"; only these two outcomes exist for a
failing probe, so a non-credentials probe failure never yields a 500. -/
theorem C3_probe_error_mapping (prov : S3Provider)
    (loads : String → Except String Json) (bucket fp : String) (rm : Bool)
    (e : Int) (he : 600 < e ∧ e ≤ 302400) :
    (∀ c m, prov.headObject bucket (quote (stripSlashes fp)) = .error (.client c m) →
      get_s3_file prov loads bucket fp e rm =
        (.httpError 404 ("File or folder not found: " ++ quote (stripSlashes fp)),
         [.headObj bucket (quote (stripSlashes fp))])) ∧
    (prov.headObject bucket (quote (stripSlashes fp)) = .error .noCredentials →
      get_s3_file prov loads bucket fp e rm =
        (.httpError 500 "AWS credentials not available",
         [.headObj bucket (quote (stripSlashes fp))])) :=
  ⟨fun c m hh => get_s3_file_probe_client_error prov loads bucket fp rm e c m he hh,
   fun hh => get_s3_file_probe_nocred prov loads bucket fp rm e he hh⟩

/-- C3 witness: the amended mapping evaluated on the access-denied
provider and on the credentials-failure provider. -/
theorem C3_probe_error_mapping_witness :
    get_s3_file deniedProv toyLoads "bucket" "HDX/x.txt" 3600 false =
      (.httpError 404 "File or folder not found: HDX/x.txt",
       [.headObj "bucket" "HDX/x.txt"]) ∧
    get_s3_file credFailProv toyLoads "bucket" "HDX/x.txt" 3600 false =
      (.httpError 500 "AWS credentials not available",
       [.headObj "bucket" "HDX/x.txt"]) := by
  have hd := (C3_probe_error_mapping deniedProv toyLoads "bucket" "HDX/x.txt"
    false 3600 (by decide)).1 "403"
    "An error occurred (403) when calling the HeadObject operation: Forbidden" rfl
  have hc := (C3_probe_error_mapping credFailProv toyLoads "bucket" "HDX/x.txt"
    false 3600 (by decide)).2 rfl
  exact ⟨hd, hc⟩

/-- C4 counterexample: a HEAD with unavailable credentials does not yield
a 500 carrying the provider's message: `NoCredentialsError` carries no
`.response`, so the except block's `e.response["Error"]["Code"]` itself
raises and the exception escapes the handler — no `HTTPException` with a
detail payload is produced at all. -/
theorem C4_counterexample :
    head_s3_file credFailProv "bucket" "HDX/x.txt" = .unhandled ∧
    (∀ d, head_s3_file credFailProv "bucket" "HDX/x.txt" ≠ .httpError 500 d) ∧
    (head_s3_file credFailProv "bucket" "HDX/x.txt").errorPayload = none := by
  refine ⟨rfl, fun d hd => ?_, rfl⟩
  rw [show head_s3_file credFailProv "bucket" "HDX/x.txt" = .unhandled from rfl] at hd
  exact HeadResult.noConfusion hd

/-- C4 (amended): for every HEAD request: a provider error carrying the
code "404" (object does not exist) gives the bare 404 (status 404, empty
body, no error payload); any other provider error that carries an error
code gives a 500 `HTTPException` carrying the provider's message; a
credentials failure carries no error response, so the handler's code
inspection itself raises and the exception escapes, surfacing as the
framework's generic 500 without the provider's message. -/
theorem C4_head_error_code_mapping (prov : S3Provider) (bucket fp : String) :
    (∀ m, prov.headObject bucket (quote (stripSlashes fp)) = .error (.client "404" m) →
      head_s3_file prov bucket fp = .notFound ∧
      (head_s3_file prov bucket fp).status = 404 ∧
      (head_s3_file prov bucket fp).errorPayload = none) ∧
    (∀ c m, prov.headObject bucket (quote (stripSlashes fp)) = .error (.client c m) →
      c ≠ "404" →
      head_s3_file prov bucket fp = .httpError 500 ("AWS Error: " ++ m)) ∧
    (prov.headObject bucket (quote (stripSlashes fp)) = .error .noCredentials →
      head_s3_file prov bucket fp = .unhandled ∧
      (head_s3_file prov bucket fp).status = 500 ∧
      (head_s3_file prov bucket fp).errorPayload = none ∧
      ∀ d, head_s3_file prov bucket fp ≠ .httpError 500 d) := by
  refine ⟨?_, ?_, ?_⟩
  · intro m hh
    have h1 : head_s3_file prov bucket fp = .notFound := by
      simp [head_s3_file, hh, S3Error.responseCode]
    exact ⟨h1, by rw [h1]; rfl, by rw [h1]; rfl⟩
  · intro c m hh hc
    simp [head_s3_file, hh, S3Error.responseCode, hc, S3Error.str]
  · intro hh
    have h1 : head_s3_file prov bucket fp = .unhandled := by
      simp [head_s3_file, hh, S3Error.responseCode]
    refine ⟨h1, by rw [h1]; rfl, by rw [h1]; rfl, fun d hd => ?_⟩
    rw [h1] at hd
    exact HeadResult.noConfusion hd

/-- C4 witness: the amended HEAD mapping on a missing object, on an
access-denied client error and on a credentials failure. -/
theorem C4_head_error_code_mapping_witness :
    head_s3_file missingProv "bucket" "HDX/x.txt" = .notFound ∧
    head_s3_file deniedProv "bucket" "HDX/x.txt" =
      .httpError 500
        "AWS Error: An error occurred (403) when calling the HeadObject operation: Forbidden" ∧
    head_s3_file credFailProv "bucket" "HDX/x.txt" = .unhandled := by
  refine ⟨?_, ?_, ?_⟩
  · exact ((C4_head_error_code_mapping missingProv "bucket" "HDX/x.txt").1
      "An error occurred (404) when calling the HeadObject operation: Not Found"
      rfl).1
  · exact (C4_head_error_code_mapping deniedProv "bucket" "HDX/x.txt").2.1
      "403" "An error occurred (403) when calling the HeadObject operation: Forbidden"
      rfl (by decide)
  · exact ((C4_head_error_code_mapping credFailProv "bucket" "HDX/x.txt").2.2 rfl).1

/-- C5: for every bucket and folder whose listing succeeds, the endpoint
streams `generate`, and the concatenated output is `[`, then the dumped
records of all pages in provider-returned order joined by `,` (no leading
comma before the first), then `]`; zero matching objects yield exactly
`[]`, and N objects yield exactly N records in order. -/
theorem C5_listing_array_shape (prov : S3Provider) (h : Humanizer)
    (bucket folder : String) (prettify : Bool) (pages : List (List S3Object))
    (hp : prov.listPages bucket (stripSlashes folder ++ "/") = .ok pages) :
    list_s3_files prov h bucket folder prettify =
      .stream (generate prettify h pages) ∧
    concatChunks (generate prettify h pages) =
      "[" ++ commaJoined (pages.flatten.map fun it => (itemDict prettify h it).dumps)
        ++ "]" ∧
    (pages.flatten = [] → concatChunks (generate prettify h pages) = "[]") ∧
    (pages.flatten.map fun it => (itemDict prettify h it).dumps).length =
      pages.flatten.length := by
  refine ⟨by simp [list_s3_files, hp], generate_concat prettify h pages, ?_,
    by rw [List.length_map]⟩
  intro hnil
  rw [generate_concat, hnil]
  rfl

/-- C5 witness: the streamed array evaluated on a three-page listing. -/
theorem C5_listing_array_shape_witness :
    list_s3_files okProv toyHumanizer "bucket" "/HDX" false =
      .stream (generate false toyHumanizer okPages) ∧
    concatChunks (generate false toyHumanizer okPages) =
      "[" ++ commaJoined (okPages.flatten.map
        fun it => (itemDict false toyHumanizer it).dumps) ++ "]" ∧
    concatChunks (generate false toyHumanizer okPages) =
      "[\x7b\"Key\": \"HDX/a.txt\", \"LastModified\": \"2024-01-01T00:00:00Z\", \"Size\": 1\x7d,\x7b\"Key\": \"HDX/b.txt\", \"LastModified\": \"2024-01-02T00:00:00Z\", \"Size\": 2\x7d,\x7b\"Key\": \"HDX/c.txt\", \"LastModified\": \"2024-01-03T00:00:00Z\", \"Size\": 3\x7d]" ∧
    concatChunks (generate false toyHumanizer []) = "[]" := by
  have h := C5_listing_array_shape okProv toyHumanizer "bucket" "/HDX" false okPages rfl
  have h0 := C5_listing_array_shape okProv toyHumanizer "bucket" "/HDX" false okPages rfl
  exact ⟨h.1, h.2.1, rfl, rfl⟩

/-- C6: for every listed object record, the prettify-mode and raw-mode
records have the same member names and agree on every member other than
`Size` and `LastModified` (in particular on `Key`); in raw mode
`LastModified` is the ISO-8601 UTC string `strftimeIso` and `Size` the raw
integer byte count, while prettify mode renders both as the humanized
strings. -/
theorem C6_prettify_raw_agreement (h : Humanizer) (item : S3Object) :
    (itemDict true h item).field "Key" = (itemDict false h item).field "Key" ∧
    (itemDict false h item).field "Key" = some (.str item.key) ∧
    (itemDict true h item).fieldNames = (itemDict false h item).fieldNames ∧
    (∀ k, k ≠ "LastModified" → k ≠ "Size" →
      (itemDict true h item).field k = (itemDict false h item).field k) ∧
    (itemDict false h item).field "LastModified" =
      some (.str (strftimeIso item.lastModified)) ∧
    (itemDict false h item).field "Size" = some (.num (item.size : Int)) ∧
    (itemDict true h item).field "LastModified" =
      some (.str (h.naturaldate item.lastModified)) ∧
    (itemDict true h item).field "Size" = some (.str (h.naturalsize item.size)) := by
  refine ⟨rfl, rfl, rfl, ?_, rfl, rfl, rfl, rfl⟩
  intro k hk1 hk2
  by_cases hk : k = "Key"
  · subst hk; rfl
  · have hb1 : (k == "Key") = false := by simp [hk]
    have hb2 : (k == "LastModified") = false := by simp [hk1]
    have hb3 : (k == "Size") = false := by simp [hk2]
    simp [itemDict, Json.field, List.lookup, hb1, hb2, hb3]

/-- C6 witness: the record agreement evaluated on a concrete item. -/
theorem C6_prettify_raw_agreement_witness :
    (itemDict true toyHumanizer ⟨"HDX/a.txt", sampleDate, 42⟩).field "Key" =
      (itemDict false toyHumanizer ⟨"HDX/a.txt", sampleDate, 42⟩).field "Key" ∧
    (itemDict false toyHumanizer ⟨"HDX/a.txt", sampleDate, 42⟩).field "LastModified" =
      some (.str "2024-01-15T12:00:00Z") ∧
    (itemDict true toyHumanizer ⟨"HDX/a.txt", sampleDate, 42⟩).field "Accept" =
      (itemDict false toyHumanizer ⟨"HDX/a.txt", sampleDate, 42⟩).field "Accept" := by
  have h := C6_prettify_raw_agreement toyHumanizer ⟨"HDX/a.txt", sampleDate, 42⟩
  exact ⟨h.1, h.2.2.2.2.1, h.2.2.2.1 "Accept" (by decide) (by decide)⟩

/-- C7: for every GET request with the inline-delivery flag set and a
slash-stripped key ending in ".json" case-insensitively, a successful read
and parse returns the parsed JSON as the structured response body; if the
read or the parse fails, the request fails with a 500 whose detail is
"Error reading meta.json: " followed by the failure message. -/
theorem C7_inline_json_delivery (prov : S3Provider)
    (loads : String → Except String Json) (bucket fp : String)
    (e : Int) (md : HeadMeta) (he : 600 < e ∧ e ≤ 302400)
    (hh : prov.headObject bucket (quote (stripSlashes fp)) = .ok md)
    (hj : lowerEndsWithJson (stripSlashes fp) = true) :
    (∀ body j, prov.getObject bucket (stripSlashes fp) = .ok body →
      loads body = .ok j →
      get_s3_file prov loads bucket fp e true =
        (.jsonBody j,
         [.headObj bucket (quote (stripSlashes fp)),
          .getObj bucket (stripSlashes fp)])) ∧
    (∀ body m, prov.getObject bucket (stripSlashes fp) = .ok body →
      loads body = .error m →
      get_s3_file prov loads bucket fp e true =
        (.httpError 500 ("Error reading meta.json: " ++ m),
         [.headObj bucket (quote (stripSlashes fp)),
          .getObj bucket (stripSlashes fp)])) ∧
    (∀ err, prov.getObject bucket (stripSlashes fp) = .error err →
      get_s3_file prov loads bucket fp e true =
        (.httpError 500 ("Error reading meta.json: " ++ err.str),
         [.headObj bucket (quote (stripSlashes fp)),
          .getObj bucket (stripSlashes fp)])) :=
  ⟨fun body j hg hl => get_s3_file_json_ok prov loads bucket fp e md body j he hh hj hg hl,
   fun body m hg hl =>
     get_s3_file_json_load_error prov loads bucket fp e md body m he hh hj hg hl,
   fun err hg => get_s3_file_json_get_error prov loads bucket fp e md err he hh hj hg⟩

/-- C7 witness: inline JSON delivery evaluated on a concrete provider
whose object body parses to the empty JSON object. -/
theorem C7_inline_json_delivery_witness :
    get_s3_file okProv toyLoads "bucket" "HDX/meta.json" 3600 true =
      (.jsonBody (.obj []),
       [.headObj "bucket" "HDX/meta.json", .getObj "bucket" "HDX/meta.json"]) :=
  (C7_inline_json_delivery okProv toyLoads "bucket" "HDX/meta.json" 3600 sampleMeta
    (by decide) rfl rfl).1 "\x7b\x7d" (.obj []) rfl rfl

/-- C8: for every GET request on a missing object (probe failure with
error code 404), the request fails 404 with a detail naming the probed
(percent-quoted, slash-stripped) requested path, and the provider trace
is the existence probe alone: no object read and no presigned-URL
issuance takes place. -/
theorem C8_missing_404_probe_first (prov : S3Provider)
    (loads : String → Except String Json) (bucket fp : String) (rm : Bool)
    (e : Int) (m : String) (he : 600 < e ∧ e ≤ 302400)
    (hh : prov.headObject bucket (quote (stripSlashes fp)) =
      .error (.client "404" m)) :
    get_s3_file prov loads bucket fp e rm =
      (.httpError 404 ("File or folder not found: " ++ quote (stripSlashes fp)),
       [.headObj bucket (quote (stripSlashes fp))]) ∧
    readKeys (get_s3_file prov loads bucket fp e rm).2 = [] ∧
    ∀ b k x, PCall.presignUrl b k x ∉ (get_s3_file prov loads bucket fp e rm).2 := by
  have h1 := get_s3_file_probe_client_error prov loads bucket fp rm e "404" m he hh
  refine ⟨h1, by rw [h1]; rfl, ?_⟩
  intro b k x hmem
  rw [h1] at hmem
  simp at hmem

/-- C8 witness: the missing-object 404 evaluated on a concrete provider. -/
theorem C8_missing_404_probe_first_witness :
    get_s3_file missingProv toyLoads "bucket" "HDX/x.json" 3600 true =
      (.httpError 404 "File or folder not found: HDX/x.json",
       [.headObj "bucket" "HDX/x.json"]) :=
  (C8_missing_404_probe_first missingProv toyLoads "bucket" "HDX/x.json" true 3600
    "An error occurred (404) when calling the HeadObject operation: Not Found"
    (by decide) rfl).1

/-- C9: for every GET request on an existing object with the
inline-delivery flag false, or a key that does not end in ".json", the
response is a redirect to the provider's presigned URL for the
(percent-quoted) key with the requested expiry, and never an inline JSON
body. -/
theorem C9_redirect_presigned (prov : S3Provider)
    (loads : String → Except String Json) (bucket fp : String) (rm : Bool)
    (e : Int) (md : HeadMeta) (he : 600 < e ∧ e ≤ 302400)
    (hh : prov.headObject bucket (quote (stripSlashes fp)) = .ok md)
    (hnm : rm = false ∨ lowerEndsWithJson (stripSlashes fp) = false) :
    get_s3_file prov loads bucket fp e rm =
      (.redirect (prov.presign bucket (quote (stripSlashes fp)) e),
       [.headObj bucket (quote (stripSlashes fp)),
        .presignUrl bucket (quote (stripSlashes fp)) e]) ∧
    ∀ j, (get_s3_file prov loads bucket fp e rm).1 ≠ .jsonBody j := by
  have h1 := get_s3_file_redirect prov loads bucket fp rm e md he hh hnm
  refine ⟨h1, fun j hj2 => ?_⟩
  rw [h1] at hj2
  exact GetResult.noConfusion hj2

/-- C9 witness: the redirect evaluated on a concrete provider with
`read_meta = false` on a `.json` key. -/
theorem C9_redirect_presigned_witness :
    get_s3_file okProv toyLoads "bucket" "HDX/meta.json" 3600 false =
      (.redirect "https://bucket.s3.amazonaws.com/HDX/meta.json?Expires=3600",
       [.headObj "bucket" "HDX/meta.json",
        .presignUrl "bucket" "HDX/meta.json" 3600]) :=
  (C9_redirect_presigned okProv toyLoads "bucket" "HDX/meta.json" false 3600
    sampleMeta (by decide) rfl (Or.inl rfl)).1

/-- C10: in the GET handler, the existence probe key is the percent-quoted
slash-stripped path while the inline-JSON read key is the raw
slash-stripped path, so whenever percent-quoting is not the identity on
the path, the probed key differs from every key read. -/
theorem C10_probe_vs_read_key (prov : S3Provider)
    (loads : String → Except String Json) (bucket fp : String)
    (e : Int) (md : HeadMeta) (he : 600 < e ∧ e ≤ 302400)
    (hh : prov.headObject bucket (quote (stripSlashes fp)) = .ok md)
    (hj : lowerEndsWithJson (stripSlashes fp) = true)
    (hq : quote (stripSlashes fp) ≠ stripSlashes fp) :
    probedKeys (get_s3_file prov loads bucket fp e true).2 =
      [quote (stripSlashes fp)] ∧
    readKeys (get_s3_file prov loads bucket fp e true).2 = [stripSlashes fp] ∧
    ∀ k1 k2, k1 ∈ probedKeys (get_s3_file prov loads bucket fp e true).2 →
      k2 ∈ readKeys (get_s3_file prov loads bucket fp e true).2 → k1 ≠ k2 := by
  have htr : (get_s3_file prov loads bucket fp e true).2 =
      [.headObj bucket (quote (stripSlashes fp)),
       .getObj bucket (stripSlashes fp)] := by
    cases hg : prov.getObject bucket (stripSlashes fp) with
    | error err =>
      rw [get_s3_file_json_get_error prov loads bucket fp e md err he hh hj hg]
    | ok body =>
      cases hl : loads body with
      | error m =>
        rw [get_s3_file_json_load_error prov loads bucket fp e md body m he hh hj hg hl]
      | ok j =>
        rw [get_s3_file_json_ok prov loads bucket fp e md body j he hh hj hg hl]
  refine ⟨by rw [htr]; rfl, by rw [htr]; rfl, ?_⟩
  intro k1 k2 h1 h2
  rw [htr] at h1 h2
  have hpk : probedKeys
      [PCall.headObj bucket (quote (stripSlashes fp)),
       PCall.getObj bucket (stripSlashes fp)] = [quote (stripSlashes fp)] := rfl
  have hrk : readKeys
      [PCall.headObj bucket (quote (stripSlashes fp)),
       PCall.getObj bucket (stripSlashes fp)] = [stripSlashes fp] := rfl
  rw [hpk, List.mem_singleton] at h1
  rw [hrk, List.mem_singleton] at h2
  rw [h1, h2]
  exact hq

/-- C10 witness: on the path "HDX/a b.json" the probed key is
"HDX/a%20b.json" while the read key is "HDX/a b.json", and they differ. -/
theorem C10_probe_vs_read_key_witness :
    probedKeys (get_s3_file okProv toyLoads "bucket" "HDX/a b.json" 3600 true).2 =
      ["HDX/a%20b.json"] ∧
    readKeys (get_s3_file okProv toyLoads "bucket" "HDX/a b.json" 3600 true).2 =
      ["HDX/a b.json"] ∧
    ("HDX/a%20b.json" : String) ≠ "HDX/a b.json" := by
  have h := C10_probe_vs_read_key okProv toyLoads "bucket" "HDX/a b.json" 3600
    sampleMeta (by decide) rfl rfl (by decide)
  refine ⟨h.1, h.2.1, ?_⟩
  intro hcontra
  exact (by decide : quote (stripSlashes "HDX/a b.json") ≠ stripSlashes "HDX/a b.json")
    hcontra

end S3Api
